import Mathlib

/-!
Verification of the login view of `service_info` (static/js login view).

The JavaScript source is shallowly embedded:
* the Configuration Store (`config.get` / `config.set`) is a partial map
  from keys to string values,
* the DOM observables touched by the view are records of booleans and
  strings (menu item visibility, `window.location.hash`, error slots),
* `toggleLoginMenuItem`, the submit click handler, and the ajax
  success/error callbacks are state transformers over those records.
-/

namespace ServiceInfo

/-- The Configuration Store: `config.get k` yields the stored string or
`undefined` (here `none`). -/
abbrev Store := String → Option String

/-- `config.get(key)`. -/
def Store.get (s : Store) (k : String) : Option String := s k

/-- `config.set(key, value)`: the written value is immediately visible to
subsequent `get` calls. -/
def Store.set (s : Store) (k v : String) : Store :=
  fun k' => if k' = k then some v else s k'

/-- A store with no keys set (in particular no auth token). -/
def emptyStore : Store := fun _ => none

/-- JavaScript truthiness of the values a `Store` can hold:
`undefined` and the empty string are falsy, every other string is truthy.
This is the test performed by `if (config.get('forever.authToken'))`. -/
def truthy : Option String → Bool
  | none => false
  | some s => !s.isEmpty

/-- The DOM observables of the menu and address bar:
visibility of `.menu-item-login` and `.menu-item-logout`, and
`window.location.hash`. -/
structure UIState where
  loginVisible : Bool
  logoutVisible : Bool
  hash : String
deriving DecidableEq, Repr

/-- `toggleLoginMenuItem()` from the login view: if the stored
`forever.authToken` is truthy, hide `.menu-item-login` and show
`.menu-item-logout`; otherwise show login, hide logout, and (the
`TODO: Remove this later` line) set `window.location.hash = 'login'`. -/
def toggleLoginMenuItem (cfg : Store) (ui : UIState) : UIState :=
  if truthy (cfg.get "forever.authToken") then
    { ui with loginVisible := false, logoutVisible := true }
  else
    { ui with loginVisible := true, logoutVisible := false, hash := "login" }

/-- The text content of the error display slots, keyed by slot name:
`"non-field-errors"` for `.non-field-errors`, `"error-" ++ field` for
`.error-<field>`. -/
abbrev ErrState := String → String

/-- All error slots empty. -/
def emptyErrors : ErrState := fun _ => ""

/-- One binding seen by `for (var k in e.responseJSON)`: its key, the value
`e.responseJSON[k]`, and whether the property is an own property of the
payload object (`hasOwnProperty`) or inherited from its prototype chain.
`for..in` yields each key at most once, own properties first. -/
structure PayloadEntry where
  key : String
  value : String
  own : Bool
deriving DecidableEq, Repr

/-- `$el.find(slot).text(text)`: overwrite one slot's text. -/
def setSlot (st : ErrState) (slot text : String) : ErrState :=
  fun s => if s = slot then text else st s

/-- One iteration of the `for..in` loop of the ajax error callback:
`non_field_errors` is written to `.non-field-errors` with no
`hasOwnProperty` check; any other key is written to `.error-<key>` only
when it is an own property; otherwise nothing happens. -/
def renderEntry (st : ErrState) (e : PayloadEntry) : ErrState :=
  if e.key = "non_field_errors" then setSlot st "non-field-errors" e.value
  else if e.own then setSlot st ("error-" ++ e.key) e.value
  else st

/-- Modelled from the spec: `$('.error').text('')` clears every error
display slot.  Which DOM elements carry the class `error` is decided by
the `login.hbs` template, which is not under `src/`; the spec states that
all previously displayed error text is cleared. -/
def clearErrors (_ : ErrState) : ErrState := fun _ => ""

/-- The `for..in` loop of the error callback over the whole payload. -/
def renderPayload (payload : List PayloadEntry) (st : ErrState) : ErrState :=
  payload.foldl renderEntry st

/-- The ajax `error:` callback: clear all error slots, then render each
payload entry in iteration order. -/
def errorCallback (payload : List PayloadEntry) (st : ErrState) : ErrState :=
  renderPayload payload (clearErrors st)

/-- The whole observable state the login view touches. -/
structure AppState where
  cfg : Store
  ui : UIState
  errors : ErrState

/-- The `$(function() { toggleLoginMenuItem(); })` module-load hook. -/
def moduleLoadToggle (s : AppState) : AppState :=
  { s with ui := toggleLoginMenuItem s.cfg s.ui }

/-- The values of the form's named inputs `email` and `password`. -/
structure Credentials where
  email : String
  password : String
deriving DecidableEq, Repr

/-- The HTTP request issued by `$.ajax`. -/
structure Request where
  url : String
  method : String
  body : Credentials
deriving DecidableEq, Repr

/-- What the `click button` handler does before the server answers. -/
structure SubmitResult where
  defaultPrevented : Bool
  request : Request
  state : AppState

/-- JavaScript string coercion of a store value, as performed by
`config.get('api_location') + 'api/login/'`. -/
def jsStr : Option String → String
  | none => "undefined"
  | some s => s

/-- The `click button` handler: `ev.preventDefault()`, read the inputs
synchronously, and issue `POST {api_location}api/login/` with body
`{email, password}`.  No state is mutated before a callback runs. -/
def clickHandler (s : AppState) (form : Credentials) : SubmitResult :=
  { defaultPrevented := true
    request :=
      { url := jsStr (s.cfg.get "api_location") ++ "api/login/"
        method := "POST"
        body := { email := form.email, password := form.password } }
    state := s }

/-- The success payload: the callback only reads `data.token`. -/
structure SuccessPayload where
  token : String
deriving DecidableEq, Repr

/-- The ajax `success:` callback:
`config.set('forever.authToken', data.token)`, then
`toggleLoginMenuItem()`, then `window.location.hash = 'service'`. -/
def successCallback (data : SuccessPayload) (s : AppState) : AppState :=
  let cfg := s.cfg.set "forever.authToken" data.token
  let ui := toggleLoginMenuItem cfg s.ui
  { cfg := cfg, ui := { ui with hash := "service" }, errors := s.errors }

/-- The ajax `error:` callback lifted to the whole state: it only rewrites
the error slots. -/
def errorCallbackApp (payload : List PayloadEntry) (s : AppState) : AppState :=
  { s with errors := errorCallback payload s.errors }

/-- Concrete stores and states used by the witnesses. -/
def storeWithToken (t : String) : Store :=
  fun k => if k = "forever.authToken" then some t else none

def uiW : UIState := { loginVisible := true, logoutVisible := true, hash := "start" }

theorem truthy_ne_empty {T : String} (hT : T ≠ "")
    : truthy (some T) = true := by
  have hI : T.isEmpty = false := by
    cases hI : T.isEmpty
    · rfl
    · exact absurd ((String.isEmpty_iff T).mp hI) hT
  simp [truthy, hI]

/-- C3: a non-empty stored token makes `toggleLoginMenuItem` show the
logout menu item, hide the login menu item, and leave the navigation hash
unchanged. -/
theorem toggle_with_token (cfg : Store) (ui : UIState) (T : String)
    (hT : T ≠ "") (h : cfg.get "forever.authToken" = some T) :
    (toggleLoginMenuItem cfg ui).logoutVisible = true ∧
    (toggleLoginMenuItem cfg ui).loginVisible = false ∧
    (toggleLoginMenuItem cfg ui).hash = ui.hash := by
  simp [toggleLoginMenuItem, h, truthy_ne_empty hT]

/-- Witness for C3 at the token `"abc123"`. -/
theorem toggle_with_token_witness :
    (toggleLoginMenuItem (storeWithToken "abc123") uiW).logoutVisible = true ∧
    (toggleLoginMenuItem (storeWithToken "abc123") uiW).loginVisible = false ∧
    (toggleLoginMenuItem (storeWithToken "abc123") uiW).hash = uiW.hash :=
  toggle_with_token (storeWithToken "abc123") uiW "abc123" (by decide) (by decide)

/-- C4: with no stored token, `toggleLoginMenuItem` shows the login menu
item, hides the logout menu item, and forces the navigation hash to
`"login"`. -/
theorem toggle_without_token (cfg : Store) (ui : UIState)
    (h : cfg.get "forever.authToken" = none) :
    (toggleLoginMenuItem cfg ui).loginVisible = true ∧
    (toggleLoginMenuItem cfg ui).logoutVisible = false ∧
    (toggleLoginMenuItem cfg ui).hash = "login" := by
  simp [toggleLoginMenuItem, h, truthy]

/-- Witness for C4 at the empty store. -/
theorem toggle_without_token_witness :
    (toggleLoginMenuItem emptyStore uiW).loginVisible = true ∧
    (toggleLoginMenuItem emptyStore uiW).logoutVisible = false ∧
    (toggleLoginMenuItem emptyStore uiW).hash = "login" :=
  toggle_without_token emptyStore uiW rfl

/-- C7: with the Configuration Store unchanged, running
`toggleLoginMenuItem` twice gives the same observable state as running it
once. -/
theorem toggle_idempotent (cfg : Store) (ui : UIState) :
    toggleLoginMenuItem cfg (toggleLoginMenuItem cfg ui) =
      toggleLoginMenuItem cfg ui := by
  unfold toggleLoginMenuItem
  cases h : truthy (cfg.get "forever.authToken") <;> simp [h]

/-- C10: a stored empty-string token is falsy, so `toggleLoginMenuItem`
behaves exactly as in the absent-token state: login shown, logout hidden,
hash forced to `"login"`. -/
theorem toggle_empty_token (cfg : Store) (ui : UIState)
    (h : cfg.get "forever.authToken" = some "") :
    toggleLoginMenuItem cfg ui = toggleLoginMenuItem emptyStore ui ∧
    (toggleLoginMenuItem cfg ui).loginVisible = true ∧
    (toggleLoginMenuItem cfg ui).logoutVisible = false ∧
    (toggleLoginMenuItem cfg ui).hash = "login" := by
  have h' : cfg "forever.authToken" = some "" := h
  have hE : ("" : String).isEmpty = true := rfl
  simp [toggleLoginMenuItem, truthy, Store.get, h', emptyStore, hE]

/-- Witness for C10 at a store holding the empty string. -/
theorem toggle_empty_token_witness :
    toggleLoginMenuItem (storeWithToken "") uiW =
      toggleLoginMenuItem emptyStore uiW ∧
    (toggleLoginMenuItem (storeWithToken "") uiW).loginVisible = true ∧
    (toggleLoginMenuItem (storeWithToken "") uiW).logoutVisible = false ∧
    (toggleLoginMenuItem (storeWithToken "") uiW).hash = "login" :=
  toggle_empty_token (storeWithToken "") uiW (by decide)

/-- C1: a successful login whose payload carries `token = "abc123"` leaves
the store's `forever.authToken` equal to `"abc123"`, the menu in the
logged-in configuration (login hidden, logout shown, because the toggle
ran after the token was written), and the navigation hash at `"service"`. -/
theorem login_success (s : AppState) :
    (successCallback ⟨"abc123"⟩ s).cfg.get "forever.authToken" = some "abc123" ∧
    (successCallback ⟨"abc123"⟩ s).ui.loginVisible = false ∧
    (successCallback ⟨"abc123"⟩ s).ui.logoutVisible = true ∧
    (successCallback ⟨"abc123"⟩ s).ui.hash = "service" := by
  have hE : ("abc123" : String).isEmpty = false := rfl
  simp [successCallback, Store.get, Store.set, toggleLoginMenuItem, truthy, hE]

/-- Counterexample to C2 as stated: an inherited (non-own)
`non_field_errors` property IS rendered into the `.non-field-errors`
slot, because the `k == 'non_field_errors'` branch of the error callback
runs before the `hasOwnProperty` check. -/
theorem inherited_non_field_rendered :
    (⟨"non_field_errors", "evil", false⟩ : PayloadEntry).own = false ∧
    errorCallback [⟨"non_field_errors", "evil", false⟩] emptyErrors
        "non-field-errors" = "evil" ∧
    ("evil" : String) ≠ "" :=
  ⟨rfl, rfl, by decide⟩

theorem renderEntry_skip (st : ErrState) (e : PayloadEntry)
    (h1 : e.own = false) (h2 : e.key ≠ "non_field_errors") :
    renderEntry st e = st := by
  simp [renderEntry, h1, h2]

theorem renderPayload_cons (e : PayloadEntry) (tl : List PayloadEntry)
    (st : ErrState) :
    renderPayload (e :: tl) st = renderPayload tl (renderEntry st e) := rfl

theorem renderPayload_filter_own (payload : List PayloadEntry) (st : ErrState) :
    renderPayload
        (payload.filter fun e => e.own || e.key == "non_field_errors") st =
      renderPayload payload st := by
  induction payload generalizing st with
  | nil => rfl
  | cons e tl ih =>
    rw [List.filter_cons]
    by_cases h : (e.own || e.key == "non_field_errors") = true
    · rw [if_pos h, renderPayload_cons, renderPayload_cons, ih]
    · have h' := h
      simp only [Bool.or_eq_true, beq_iff_eq, not_or, Bool.not_eq_true] at h'
      rw [if_neg h, renderPayload_cons, renderEntry_skip st e h'.1 h'.2]
      exact ih st

/-- C2 amended: an inherited (non-own) payload key OTHER THAN
`non_field_errors` is never rendered: dropping all such entries from the
payload leaves the error callback's output unchanged on every slot.
(An inherited `non_field_errors` IS rendered, per the counterexample.) -/
theorem error_render_skips_inherited (payload : List PayloadEntry)
    (st : ErrState) :
    errorCallback payload st =
      errorCallback
        (payload.filter fun e => e.own || e.key == "non_field_errors") st :=
  (renderPayload_filter_own payload (clearErrors st)).symm

/-- The failure payload of C5: `{email: "Invalid email",
non_field_errors: "Bad login"}`, both own properties. -/
def payloadC5 : List PayloadEntry :=
  [⟨"email", "Invalid email", true⟩, ⟨"non_field_errors", "Bad login", true⟩]

/-- C5: after a failure with payload
`{email: "Invalid email", non_field_errors: "Bad login"}`, the
`.error-email` slot holds `"Invalid email"`, the `.non-field-errors` slot
holds `"Bad login"`, and every other slot is empty, whatever was
displayed before. -/
theorem failure_email_nonfield (st : ErrState) :
    errorCallback payloadC5 st "error-email" = "Invalid email" ∧
    errorCallback payloadC5 st "non-field-errors" = "Bad login" ∧
    ∀ slot, slot ≠ "error-email" → slot ≠ "non-field-errors" →
      errorCallback payloadC5 st slot = "" := by
  refine ⟨rfl, rfl, ?_⟩
  intro slot h1 h2
  have hA : ("error-" ++ "email" : String) = "error-email" := rfl
  simp [errorCallback, renderPayload, payloadC5, renderEntry, clearErrors,
    setSlot, hA, h1, h2]

/-- Witness for C5: the two populated slots and an untouched third slot,
starting from the all-empty error display. -/
theorem failure_email_nonfield_witness :
    errorCallback payloadC5 emptyErrors "error-email" = "Invalid email" ∧
    errorCallback payloadC5 emptyErrors "error-password" = "" :=
  ⟨(failure_email_nonfield emptyErrors).1,
   (failure_email_nonfield emptyErrors).2.2 "error-password"
     (by decide) (by decide)⟩

/-- C6: the error callback clears every slot before rendering: its output
is independent of the previously displayed error text, an empty payload
leaves every slot empty, and the callback factors as rendering the
payload over the all-empty display. -/
theorem error_clears_before_render :
    (∀ (payload : List PayloadEntry) (st st' : ErrState) (slot : String),
        errorCallback payload st slot = errorCallback payload st' slot) ∧
    (∀ (st : ErrState) (slot : String), errorCallback [] st slot = "") ∧
    (∀ (payload : List PayloadEntry) (st : ErrState),
        errorCallback payload st = renderPayload payload emptyErrors) :=
  ⟨fun _ _ _ _ => rfl, fun _ _ => rfl, fun _ _ => rfl⟩

/-- C8: no operation of the component writes any Configuration Store key
other than `forever.authToken`: the module-load toggle, the click
handler, and the error callback leave the whole store unchanged, and the
success callback changes at most `forever.authToken`. -/
theorem config_frame :
    (∀ (s : AppState) (k : String), (moduleLoadToggle s).cfg k = s.cfg k) ∧
    (∀ (s : AppState) (form : Credentials) (k : String),
        (clickHandler s form).state.cfg k = s.cfg k) ∧
    (∀ (d : SuccessPayload) (s : AppState) (k : String),
        k ≠ "forever.authToken" → (successCallback d s).cfg k = s.cfg k) ∧
    (∀ (payload : List PayloadEntry) (s : AppState) (k : String),
        (errorCallbackApp payload s).cfg k = s.cfg k) := by
  refine ⟨fun _ _ => rfl, fun _ _ _ => rfl, ?_, fun _ _ _ => rfl⟩
  intro d s k hk
  simp [successCallback, Store.set, hk]

/-- A concrete whole state for the witnesses. -/
def appW : AppState := { cfg := emptyStore, ui := uiW, errors := emptyErrors }

/-- Witness for C8: the error callback and the success callback leave the
`api_location` key where it was. -/
theorem config_frame_witness :
    (errorCallbackApp [] appW).cfg "api_location" = appW.cfg "api_location" ∧
    (successCallback ⟨"abc123"⟩ appW).cfg "api_location" =
      appW.cfg "api_location" :=
  ⟨config_frame.2.2.2 [] appW "api_location",
   config_frame.2.2.1 ⟨"abc123"⟩ appW "api_location" (by decide)⟩

/-- C9: the click handler suppresses the default submit, reads the
email/password values of the form it was handed at that instant, and
issues `POST` to the stored `api_location` value concatenated with
`api/login/`, with body `{email, password}`. -/
theorem submit_request (s : AppState) (form : Credentials) (base : String)
    (h : s.cfg.get "api_location" = some base) :
    (clickHandler s form).defaultPrevented = true ∧
    (clickHandler s form).request.method = "POST" ∧
    (clickHandler s form).request.url = base ++ "api/login/" ∧
    (clickHandler s form).request.body.email = form.email ∧
    (clickHandler s form).request.body.password = form.password := by
  simp [clickHandler, jsStr, h]

/-- A store holding only a base URL under `api_location`. -/
def storeApi : Store :=
  fun k => if k = "api_location" then some "https://x.test/" else none

def appApi : AppState := { cfg := storeApi, ui := uiW, errors := emptyErrors }

/-- Witness for C9 at a concrete base URL and credentials. -/
theorem submit_request_witness :
    (clickHandler appApi ⟨"a@b.c", "pw"⟩).defaultPrevented = true ∧
    (clickHandler appApi ⟨"a@b.c", "pw"⟩).request.url =
      "https://x.test/" ++ "api/login/" :=
  ⟨(submit_request appApi ⟨"a@b.c", "pw"⟩ "https://x.test/" (by decide)).1,
   (submit_request appApi ⟨"a@b.c", "pw"⟩ "https://x.test/" (by decide)).2.2.1⟩

end ServiceInfo
